import Mathlib

set_option maxHeartbeats 1000000
set_option maxRecDepth 4000

/-!
Verification of the pytest-select plugin (`src/pytest_select/plugin.py`).

The plugin's core, `pytest_collection_modifyitems`, is embedded below:
the pattern loader (lines 77-82), the matching loop (lines 84-98), the
mode flip (lines 100-102), the unmatched-pattern report (lines 104-116)
and the final mutation/notification (lines 118-120), together with
`_validate_option_values` (lines 123-140).

Python strings are modelled as Lean `String`; a selection file is
modelled as its list of lines (trailing newlines are irrelevant: the
only operations applied to a raw line are `startswith("#")`, which looks
at the first character, and `strip()`, which removes a trailing newline
anyway).  A Python `set` of strings is modelled as `Finset String`; the
iteration order used when the set is joined into a message is an
explicit parameter (`enum`), constrained in theorems to be a
duplicate-free enumeration of the set, because Python exposes no
particular order.
-/

namespace PytestSelect

/-- A collected test item as the plugin sees it: `item.nodeid` is the full
identifier, `item.name` the short (leaf) name.  The plugin only reads these
two strings. -/
structure Item where
  nodeid : String
  name : String
deriving DecidableEq

/-- Whitespace stripped by Python `str.strip()` (the ASCII part, which is all
that test identifiers and patterns can contain). -/
def isPySpace (c : Char) : Bool :=
  c == ' ' || c == '\t' || c == '\n' || c == '\r' || c == '\x0b' || c == '\x0c'

/-- Python `str.strip()`: drop leading and trailing whitespace. -/
def pyStrip (l : String) : String :=
  ⟨((l.data.dropWhile isPySpace).reverse.dropWhile isPySpace).reverse⟩

/-- Python `line.startswith("#")` from line 81: true iff the first character
of the un-stripped line is the hash character. -/
def pyStartsWithHash (l : String) : Bool :=
  l.data.head? == some '#'

/-- The pattern loader, lines 77-82: the set comprehension over the lines of
the selection file keeps every line that does not start with the hash
character, strips it, and collects the results into a set. -/
def loadPatterns (lines : List String) : Finset String :=
  ((lines.filter (fun l => !pyStartsWithHash l)).map pyStrip).toFinset

/-- Scan for the closing bracket of a character class; returns the class body
and the remaining pattern, or `none` when the bracket is never closed (in
which case `fnmatch` treats the opening bracket as a literal). -/
def findClose : List Char → Option (List Char × List Char)
  | [] => none
  | ']' :: rest => some ([], rest)
  | c :: rest =>
    match findClose rest with
    | some (a, b) => some (c :: a, b)
    | none => none

/-- Split a character class after the optional negation marker: a closing
bracket in the first position belongs to the class body, as in `fnmatch`. -/
def splitClass : List Char → Option (List Char × List Char)
  | ']' :: rest =>
    match findClose rest with
    | some (a, b) => some (']' :: a, b)
    | none => none
  | s => findClose s

/-- Parse a class body into ranges: `a-b` is a range, any other character is
a singleton range; a hyphen that starts or ends the body is literal.  This is
the range handling of `fnmatch.translate`. -/
def parseClassItems : List Char → List (Char × Char)
  | [] => []
  | a :: '-' :: b :: rest => (a, b) :: parseClassItems rest
  | a :: rest => (a, a) :: parseClassItems rest

/-- Parse one character class from a pattern suffix, handling the leading
negation marker, per `fnmatch.translate`. -/
def classSpec (ps : List Char) : Option (Bool × List (Char × Char) × List Char) :=
  match ps with
  | '!' :: rest =>
    match splitClass rest with
    | some (stuff, after) => some (true, parseClassItems stuff, after)
    | none => none
  | _ =>
    match splitClass ps with
    | some (stuff, after) => some (false, parseClassItems stuff, after)
    | none => none

/-- One character against a parsed class (reversed ranges match nothing, as
in `fnmatch.translate`, which deletes them). -/
def inClass (neg : Bool) (ranges : List (Char × Char)) (c : Char) : Bool :=
  let hit := ranges.any (fun r => decide (r.1 ≤ c) && decide (c ≤ r.2))
  if neg then !hit else hit

/-- Shell-glob matching of a pattern against a whole string, as performed by
Python `fnmatch.fnmatch` on a POSIX host (where `normcase` is the identity):
`*` matches any sequence, `?` any single character, `[...]`/`[!...]` a
character class, an unclosed `[` is literal, and the match is anchored at
both ends.  The fuel argument only bounds the recursion; a fuel of pattern
length plus string length plus one is always enough, and the wrapper
`fnmatchPosix` supplies it. -/
def globMatchFuel : Nat → List Char → List Char → Bool
  | 0, _, _ => false
  | _ + 1, [], s => s.isEmpty
  | fuel + 1, '*' :: ps, s =>
    globMatchFuel fuel ps s ||
      (match s with
       | [] => false
       | _ :: s2 => globMatchFuel fuel ('*' :: ps) s2)
  | fuel + 1, '?' :: ps, s =>
    (match s with
     | [] => false
     | _ :: s2 => globMatchFuel fuel ps s2)
  | fuel + 1, '[' :: ps, s =>
    (match classSpec ps with
     | some (neg, ranges, after) =>
       match s with
       | [] => false
       | c :: s2 => inClass neg ranges c && globMatchFuel fuel after s2
     | none =>
       match s with
       | [] => false
       | c :: s2 => (c == '[') && globMatchFuel fuel ps s2)
  | fuel + 1, c :: ps, s =>
    (match s with
     | [] => false
     | d :: s2 => (c == d) && globMatchFuel fuel ps s2)

/-- Python `fnmatch.fnmatch(nm, pat)` on POSIX. -/
def fnmatchPosix (nm pat : String) : Bool :=
  globMatchFuel (pat.data.length + nm.data.length + 1) pat.data nm.data

/-- The match test of line 91:
`fnmatch.fnmatch(item.nodeid, test_pattern) or item.name == test_pattern`. -/
def matchesPattern (it : Item) (pat : String) : Bool :=
  fnmatchPosix it.nodeid pat || it.name == pat

/-- The patterns that match a given item (the inner loop of lines 90-93 adds
exactly these to `test_patterns_that_matched`). -/
def itemMatchSet (patterns : Finset String) (it : Item) : Finset String :=
  patterns.filter (fun p => matchesPattern it p = true)

/-- The `has_match` flag of lines 89-93: some pattern matched the item. -/
def hasMatchB (patterns : Finset String) (it : Item) : Bool :=
  decide (itemMatchSet patterns it).Nonempty

/-- The matching loop of lines 84-98, recursing on the item list: the first
component is `test_patterns_that_matched`, the second `selected_items`, the
third `deselected_items`.  Recursion on the tail with the head prepended
yields the same lists as the source's left-to-right appends. -/
def selectLoop (patterns : Finset String) : List Item → Finset String × List Item × List Item
  | [] => (∅, [], [])
  | it :: rest =>
    if hasMatchB patterns it then
      (itemMatchSet patterns it ∪ (selectLoop patterns rest).1,
        it :: (selectLoop patterns rest).2.1,
        (selectLoop patterns rest).2.2)
    else
      (itemMatchSet patterns it ∪ (selectLoop patterns rest).1,
        (selectLoop patterns rest).2.1,
        it :: (selectLoop patterns rest).2.2)

/-- `test_patterns_that_matched` after the loop. -/
def matchedPatterns (patterns : Finset String) (items : List Item) : Finset String :=
  (selectLoop patterns items).1

/-- `selected_items` after the loop. -/
def selectedItems (patterns : Finset String) (items : List Item) : List Item :=
  (selectLoop patterns items).2.1

/-- `deselected_items` after the loop. -/
def deselectedItems (patterns : Finset String) (items : List Item) : List Item :=
  (selectLoop patterns items).2.2

/-- The items kept after the mode flip of lines 100-102 (`shouldSelect` is
the loop variable `should_select`). -/
def keptItems (shouldSelect : Bool) (patterns : Finset String) (items : List Item) : List Item :=
  if shouldSelect then selectedItems patterns items else deselectedItems patterns items

/-- The items removed after the mode flip of lines 100-102. -/
def removedItems (shouldSelect : Bool) (patterns : Finset String) (items : List Item) : List Item :=
  if shouldSelect then deselectedItems patterns items else selectedItems patterns items

/-- `test_patterns_that_did_not_match` of line 104. -/
def unmatchedPatterns (patterns : Finset String) (items : List Item) : Finset String :=
  patterns \ matchedPatterns patterns items

/-- The fixed leading text of the message built at lines 109-113. -/
def messageHeader : String :=
  "pytest-select: Not all test patterns matched an actual test. The patterns without matching tests are:\n  - "

/-- The separator of the `join` at line 113. -/
def messageSep : String := "\n  - "

/-- The message of lines 109-113: the header followed by the join of the
unmatched patterns in the order the set is iterated (`enum`). -/
def missingMessage (enum : List String) : String :=
  messageHeader ++ String.intercalate messageSep enum

/-- An `enum` is a faithful iteration order of a set: each member once. -/
abbrev validEnum (s : Finset String) (enum : List String) : Prop :=
  enum.Nodup ∧ enum.toFinset = s

/-- Outcome of one active pass of `pytest_collection_modifyitems`: either the
`UsageError` of line 115 propagates, or the pass completes, possibly with the
warning of line 116, with the kept and removed item lists of lines 119-120. -/
inductive RunOutcome where
  | usageError (message : String)
  | completed (warning : Option String) (kept : List Item) (removed : List Item)
deriving DecidableEq

/-- Lines 100-120 for one active option: flip per mode, report unmatched
patterns (raising when `selectfailonmissing` is set), then keep/remove. -/
def runSelection (shouldSelect failOnMissing : Bool) (patterns : Finset String)
    (items : List Item) (enum : List String) : RunOutcome :=
  if (unmatchedPatterns patterns items).Nonempty then
    if failOnMissing then
      RunOutcome.usageError (missingMessage enum)
    else
      RunOutcome.completed (some (missingMessage enum))
        (keptItems shouldSelect patterns items) (removedItems shouldSelect patterns items)
  else
    RunOutcome.completed none
      (keptItems shouldSelect patterns items) (removedItems shouldSelect patterns items)

/-- The host's item collection after the pass: the raise at line 115 happens
before the slice assignment at line 119, so on `usageError` the collection is
the untouched input; otherwise it is replaced by the kept items. -/
def finalItems (shouldSelect failOnMissing : Bool) (patterns : Finset String)
    (items : List Item) (enum : List String) : List Item :=
  match runSelection shouldSelect failOnMissing patterns items enum with
  | RunOutcome.usageError _ => items
  | RunOutcome.completed _ kept _ => kept

/-- The `pytest_deselected` notification calls made by the pass: the raise at
line 115 happens before the hook call at line 120, so on `usageError` no call
is made; otherwise exactly one call carries the removed items. -/
def deselectNotifications (shouldSelect failOnMissing : Bool) (patterns : Finset String)
    (items : List Item) (enum : List String) : List (List Item) :=
  match runSelection shouldSelect failOnMissing patterns items enum with
  | RunOutcome.usageError _ => []
  | RunOutcome.completed _ _ removed => [removed]

/-- The configuration options read by the plugin (`pytest_addoption`). -/
structure Config where
  selectfromfile : Option String
  deselectfromfile : Option String
  selectfailonmissing : Bool
deriving DecidableEq

/-- The `UsageError` text of lines 129-131. -/
def conflictMessage : String :=
  "\x27--select-from-file\x27 and \x27--deselect-from-file\x27 can not be used together."

/-- The `UsageError` text of line 140. -/
def missingFileMessage (p : String) : String :=
  "Given selection file \x27" ++ p ++ "\x27 doesn\x27t exist."

/-- One iteration of the existence loop of lines 133-140, for one option
value.  `fsExists` is the filesystem's existence oracle; the second component
records which paths were queried. -/
def checkFileExists (fsExists : String → Bool) : Option String → Except String Unit × List String
  | none => (Except.ok (), [])
  | some p =>
    if fsExists p then (Except.ok (), [p])
    else (Except.error (missingFileMessage p), [p])

/-- `_validate_option_values`, lines 123-140: the conflict check of lines
124-131 runs first and touches no file; then each given path is checked for
existence, in option order, stopping at the first failure.  The second
component is the list of filesystem existence queries actually made. -/
def validateOptionValues (fsExists : String → Bool) (config : Config) :
    Except String Unit × List String :=
  if config.selectfromfile.isSome && config.deselectfromfile.isSome then
    (Except.error conflictMessage, [])
  else
    match checkFileExists fsExists config.selectfromfile with
    | (Except.error e, t) => (Except.error e, t)
    | (Except.ok _, t1) =>
      let r := checkFileExists fsExists config.deselectfromfile
      (r.1, t1 ++ r.2)

/-- Result of the whole `pytest_collection_modifyitems` hook: the error that
propagated (if any), the warning emitted (if any), the host's item
collection afterwards, and the `pytest_deselected` calls made. -/
structure HookResult where
  raisedError : Option String
  warning : Option String
  items : List Item
  notifications : List (List Item)
deriving DecidableEq

/-- The body of the option loop of lines 68-120 for one active option, given
the loaded pattern set: on `UsageError` the collection is untouched and no
notification is made; on completion the collection is replaced and one
notification carries the removed items. -/
def applyOption (shouldSelect failOnMissing : Bool) (patterns : Finset String)
    (items : List Item) (enum : List String) : HookResult :=
  match runSelection shouldSelect failOnMissing patterns items enum with
  | RunOutcome.usageError m => ⟨some m, none, items, []⟩
  | RunOutcome.completed w kept removed => ⟨none, w, kept, [removed]⟩

/-- `pytest_collection_modifyitems`, lines 65-120: validate, then run the
option loop.  After a successful validation at most one of the two options is
set (both set raises the conflict error), so the loop body executes for the
select option if given, else for the deselect option, else not at all.
`fsReadLines` gives a file's lines; the second component records which files
were opened and read. -/
def runModifyItems (fsExists : String → Bool) (fsReadLines : String → List String)
    (config : Config) (items : List Item) (enum : List String) : HookResult × List String :=
  match validateOptionValues fsExists config with
  | (Except.error e, _) => (⟨some e, none, items, []⟩, [])
  | (Except.ok _, _) =>
    match config.selectfromfile with
    | some p =>
      (applyOption true config.selectfailonmissing (loadPatterns (fsReadLines p)) items enum, [p])
    | none =>
      match config.deselectfromfile with
      | some p =>
        (applyOption false config.selectfailonmissing (loadPatterns (fsReadLines p)) items enum, [p])
      | none => (⟨none, none, items, []⟩, [])

/-- Whether a pattern contains any glob metacharacter. -/
def hasWildcard (p : String) : Bool :=
  p.data.any (fun c => c == '*' || c == '?' || c == '[')

/-!
Concrete test data used by witnesses and counterexamples, taken from the
scenarios of the specification.
-/

/-- Scenario item `tests/test_a.py::test_one`. -/
def itemA : Item := ⟨"tests/test_a.py::test_one", "test_one"⟩

/-- Scenario item `tests/test_a.py::test_two`. -/
def itemB : Item := ⟨"tests/test_a.py::test_two", "test_two"⟩

/-- Scenario item `tests/test_b.py::test_one`. -/
def itemC : Item := ⟨"tests/test_b.py::test_one", "test_one"⟩

/-- The three scenario items. -/
def itemsABC : List Item := [itemA, itemB, itemC]

/-- A selection-file line matching no scenario item. -/
def lineNoMatch : String := "does_not_exist"

/-- The pattern set loaded from a file holding only `does_not_exist`. -/
def patsMissing : Finset String := loadPatterns [lineNoMatch]

/-- An iteration order for the unmatched set of `patsMissing`. -/
def enumMissing : List String := [lineNoMatch]

/-- Selection-file line `aaa`. -/
def lineA : String := "aaa"

/-- Selection-file line `bbb`. -/
def lineB : String := "bbb"

/-- The pattern set loaded from a file holding `aaa` and `bbb`. -/
def patsAB : Finset String := loadPatterns [lineA, lineB]

/-- A line whose first character is whitespace but whose stripped form starts
with the hash character. -/
def lineIndentHash : String := "  # foo"

/-- The stripped form of `lineIndentHash`. -/
def patHashFoo : String := "# foo"

/-- A line that is blank after stripping. -/
def lineBlank : String := "   "

/-- The empty pattern. -/
def emptyPat : String := ""

/-- A duplicated selection-file line. -/
def lineDup : String := "dup"

/-- The short-name pattern of the exact-match scenario. -/
def patShort : String := "test_one"

/-- A select-file path used by the conflict witness. -/
def fileA : String := "a.txt"

/-- A deselect-file path used by the conflict witness. -/
def fileB : String := "b.txt"

/-- A configuration with both selection options set. -/
def cfgBoth : Config := ⟨some fileA, some fileB, false⟩

/-- Modelled from the spec: strict lexicographic order on code points for
character lists, the order underlying Python string comparison, which the
spec's "sorted list of unmatched patterns" refers to.  The code never sorts,
so this definition exists only to state the spec's claim. -/
def specLexLt : List Char → List Char → Bool
  | [], [] => false
  | [], _ :: _ => true
  | _ :: _, [] => false
  | a :: as, b :: bs => if a = b then specLexLt as bs else decide (a.toNat < b.toNat)

/-- Modelled from the spec: non-strict Python string comparison. -/
def specStrLe (a b : String) : Bool :=
  specLexLt a.data b.data || a == b

/-- Modelled from the spec: whether a list of strings is in the order Python
`sorted()` would produce (non-decreasing). -/
def specSorted : List String → Bool
  | [] => true
  | [_] => true
  | a :: b :: rest => specStrLe a b && specSorted (b :: rest)

/-!
Helper lemmas about the matching loop.
-/

theorem hasMatchB_iff (patterns : Finset String) (it : Item) :
    hasMatchB patterns it = true ↔ ∃ p ∈ patterns, matchesPattern it p = true := by
  simp [hasMatchB, itemMatchSet, Finset.filter_nonempty_iff]

theorem selectLoop_selected (patterns : Finset String) (items : List Item) :
    (selectLoop patterns items).2.1 = items.filter (fun it => hasMatchB patterns it) := by
  induction items with
  | nil => rfl
  | cons it rest ih =>
    cases h : hasMatchB patterns it <;>
      simp [selectLoop, h, List.filter_cons, ih]

theorem selectLoop_deselected (patterns : Finset String) (items : List Item) :
    (selectLoop patterns items).2.2 = items.filter (fun it => !hasMatchB patterns it) := by
  induction items with
  | nil => rfl
  | cons it rest ih =>
    cases h : hasMatchB patterns it <;>
      simp [selectLoop, h, List.filter_cons, ih]

theorem selectLoop_empty_patterns (items : List Item) :
    selectLoop ∅ items = (∅, [], items) := by
  induction items with
  | nil => rfl
  | cons it rest ih =>
    simp [selectLoop, hasMatchB, itemMatchSet, Finset.filter_empty,
      Finset.not_nonempty_empty, ih]

theorem count_filter_split (p : Item → Bool) (l : List Item) (x : Item) :
    (l.filter p).count x + (l.filter (fun a => !p a)).count x = l.count x := by
  induction l with
  | nil => rfl
  | cons a t ih =>
    rw [List.filter_cons, List.filter_cons]
    by_cases hx : x = a
    · subst hx
      cases h : p x <;>
        simp only [h, Bool.not_false, Bool.not_true, Bool.false_eq_true, if_false, if_true,
          ite_true, ite_false, List.count_cons] <;>
        simp <;> omega
    · cases h : p x <;> cases hpa : p a <;>
        simp only [hpa, Bool.not_false, Bool.not_true, Bool.false_eq_true, if_false, if_true,
          ite_true, ite_false, List.count_cons] <;>
        simp [hx] <;> omega

theorem mem_filter_or (p : Item → Bool) (l : List Item) (x : Item) :
    x ∈ l ↔ x ∈ l.filter p ∨ x ∈ l.filter (fun a => !p a) := by
  simp only [List.mem_filter, Bool.not_eq_true']
  cases h : p x <;> simp [h]

theorem not_mem_both_filters (p : Item → Bool) (l : List Item) (x : Item) :
    ¬(x ∈ l.filter p ∧ x ∈ l.filter (fun a => !p a)) := by
  simp only [List.mem_filter, Bool.not_eq_true']
  rintro ⟨⟨-, h1⟩, -, h2⟩
  simp [h1] at h2

theorem partition_facts (patterns : Finset String) (items : List Item) :
    (selectedItems patterns items).Sublist items ∧
    (deselectedItems patterns items).Sublist items ∧
    (∀ x : Item, (selectedItems patterns items).count x
      + (deselectedItems patterns items).count x = items.count x) ∧
    (∀ x : Item, x ∈ items ↔ x ∈ selectedItems patterns items
      ∨ x ∈ deselectedItems patterns items) ∧
    (∀ x : Item, ¬(x ∈ selectedItems patterns items
      ∧ x ∈ deselectedItems patterns items)) := by
  rw [selectedItems, deselectedItems, selectLoop_selected, selectLoop_deselected]
  exact ⟨List.filter_sublist _, List.filter_sublist _,
    fun x => count_filter_split _ _ x,
    fun x => mem_filter_or _ _ x,
    fun x => not_mem_both_filters _ _ x⟩

/-!
The claims.
-/

/-- C3: for every `Item` and every pattern, the item matches the pattern iff
the pattern is a shell-glob match against the item's full identifier
(`nodeid`) or the pattern equals the item's short name; in particular the
wildcard-free pattern `test_one` matches the item
`tests/test_a.py::test_one` through its short name even though it does not
glob-match the full identifier. -/
theorem C3_match_rule :
    (∀ (it : Item) (p : String),
        matchesPattern it p = true
          ↔ (fnmatchPosix it.nodeid p = true ∨ p = it.name)) ∧
    matchesPattern itemA patShort = true ∧
    fnmatchPosix itemA.nodeid patShort = false ∧
    hasWildcard patShort = false ∧
    itemA.name = patShort := by
  refine ⟨fun it p => ?_, by decide, by decide, by decide, by decide⟩
  simp only [matchesPattern, Bool.or_eq_true, beq_iff_eq]
  exact or_congr Iff.rfl eq_comm

/-- C4: in either mode, the kept and removed lists partition the input item
list: both are sublists of the input (so neither reorders), every occurrence
of an item lands in exactly one of the two (the counts add up), membership is
exhaustive, and no item is in both. -/
theorem C4_partition (shouldSelect : Bool) (patterns : Finset String) (items : List Item) :
    (keptItems shouldSelect patterns items).Sublist items ∧
    (removedItems shouldSelect patterns items).Sublist items ∧
    (∀ x : Item, (keptItems shouldSelect patterns items).count x
      + (removedItems shouldSelect patterns items).count x = items.count x) ∧
    (∀ x : Item, x ∈ items ↔ x ∈ keptItems shouldSelect patterns items
      ∨ x ∈ removedItems shouldSelect patterns items) ∧
    (∀ x : Item, ¬(x ∈ keptItems shouldSelect patterns items
      ∧ x ∈ removedItems shouldSelect patterns items)) := by
  obtain ⟨h1, h2, h3, h4, h5⟩ := partition_facts patterns items
  cases shouldSelect
  · simp only [keptItems, removedItems, Bool.false_eq_true, if_false]
    exact ⟨h2, h1, fun x => by rw [Nat.add_comm]; exact h3 x,
      fun x => (h4 x).trans or_comm,
      fun x hx => h5 x ⟨hx.2, hx.1⟩⟩
  · simp only [keptItems, removedItems, if_true]
    exact ⟨h1, h2, h3, h4, h5⟩

/-- C5: Deselect mode keeps exactly what Select mode removes and removes
exactly what Select mode keeps, for the same patterns and items. -/
theorem C5_mode_symmetry (patterns : Finset String) (items : List Item) :
    keptItems false patterns items = removedItems true patterns items ∧
    removedItems false patterns items = keptItems true patterns items :=
  ⟨rfl, rfl⟩

/-- C6: the loaded pattern set holds exactly the stripped forms of the lines
whose un-stripped form does not start with the hash character; the comment
check looks only at the raw first character; duplicates collapse; a blank
line contributes the empty pattern. -/
theorem C6_loader :
    (∀ (lines : List String) (p : String),
        p ∈ loadPatterns lines
          ↔ ∃ l ∈ lines, pyStartsWithHash l = false ∧ pyStrip l = p) ∧
    (∀ l : String, pyStartsWithHash l = true ↔ l.data.head? = some '#') ∧
    loadPatterns [lineDup, lineDup] = {pyStrip lineDup} ∧
    loadPatterns [lineBlank] = {emptyPat} := by
  refine ⟨fun lines p => ?_, fun l => ?_, by decide, by decide⟩
  · simp only [loadPatterns, List.mem_toFinset, List.mem_map, List.mem_filter,
      Bool.not_eq_true']
    constructor
    · rintro ⟨a, ⟨ha, hc⟩, hs⟩
      exact ⟨a, ha, hc, hs⟩
    · rintro ⟨a, ha, hc, hs⟩
      exact ⟨a, ⟨ha, hc⟩, hs⟩
  · simp [pyStartsWithHash]

/-- C7: with an empty pattern set, Select mode keeps nothing and removes
everything, Deselect mode keeps everything and removes nothing, the
unmatched-pattern set is empty, and no warning or failure is produced. -/
theorem C7_empty_patterns (failOnMissing : Bool) (items : List Item) (enum : List String) :
    unmatchedPatterns ∅ items = ∅ ∧
    runSelection true failOnMissing ∅ items enum = RunOutcome.completed none [] items ∧
    runSelection false failOnMissing ∅ items enum = RunOutcome.completed none items [] := by
  have h := selectLoop_empty_patterns items
  have hu : unmatchedPatterns (∅ : Finset String) items = ∅ := by
    simp [unmatchedPatterns]
  refine ⟨hu, ?_, ?_⟩ <;>
    simp [runSelection, hu, Finset.not_nonempty_empty, keptItems, removedItems,
      selectedItems, deselectedItems, h]

/-- C2: when `selectfailonmissing` is set and some pattern matched no item,
the pass raises the `UsageError` before the slice assignment and the
notification call, so the host's collection is unchanged and no
`pytest_deselected` call is made. -/
theorem C2_atomic_on_failure (shouldSelect : Bool) (patterns : Finset String)
    (items : List Item) (enum : List String)
    (h : (unmatchedPatterns patterns items).Nonempty) :
    runSelection shouldSelect true patterns items enum
      = RunOutcome.usageError (missingMessage enum) ∧
    finalItems shouldSelect true patterns items enum = items ∧
    deselectNotifications shouldSelect true patterns items enum = [] := by
  have hr : runSelection shouldSelect true patterns items enum
      = RunOutcome.usageError (missingMessage enum) := by
    simp [runSelection, h]
  exact ⟨hr, by simp [finalItems, hr], by simp [deselectNotifications, hr]⟩

/-- Witness for C2: the scenario with three items and the single pattern
`does_not_exist`, which matches none of them. -/
theorem C2_witness :
    (unmatchedPatterns patsMissing itemsABC).Nonempty ∧
    (runSelection true true patsMissing itemsABC enumMissing
      = RunOutcome.usageError (missingMessage enumMissing) ∧
    finalItems true true patsMissing itemsABC enumMissing = itemsABC ∧
    deselectNotifications true true patsMissing itemsABC enumMissing = []) := by
  have h : (unmatchedPatterns patsMissing itemsABC).Nonempty := by decide
  exact ⟨h, C2_atomic_on_failure true patsMissing itemsABC enumMissing h⟩

/-- C9: when `selectfailonmissing` is unset and some pattern matched no item,
the pass completes with the warning, still replaces the collection with the
kept items, and still makes exactly one notification call with the removed
items. -/
theorem C9_warning_continues (shouldSelect : Bool) (patterns : Finset String)
    (items : List Item) (enum : List String)
    (h : (unmatchedPatterns patterns items).Nonempty) :
    runSelection shouldSelect false patterns items enum
      = RunOutcome.completed (some (missingMessage enum))
          (keptItems shouldSelect patterns items)
          (removedItems shouldSelect patterns items) ∧
    finalItems shouldSelect false patterns items enum
      = keptItems shouldSelect patterns items ∧
    deselectNotifications shouldSelect false patterns items enum
      = [removedItems shouldSelect patterns items] := by
  have hr : runSelection shouldSelect false patterns items enum
      = RunOutcome.completed (some (missingMessage enum))
          (keptItems shouldSelect patterns items)
          (removedItems shouldSelect patterns items) := by
    simp [runSelection, h]
  exact ⟨hr, by simp [finalItems, hr], by simp [deselectNotifications, hr]⟩

/-- Witness for C9: same scenario as the C2 witness with the flag unset. -/
theorem C9_witness :
    (unmatchedPatterns patsMissing itemsABC).Nonempty ∧
    (runSelection true false patsMissing itemsABC enumMissing
      = RunOutcome.completed (some (missingMessage enumMissing))
          (keptItems true patsMissing itemsABC)
          (removedItems true patsMissing itemsABC) ∧
    finalItems true false patsMissing itemsABC enumMissing
      = keptItems true patsMissing itemsABC ∧
    deselectNotifications true false patsMissing itemsABC enumMissing
      = [removedItems true patsMissing itemsABC]) := by
  have h : (unmatchedPatterns patsMissing itemsABC).Nonempty := by decide
  exact ⟨h, C9_warning_continues true patsMissing itemsABC enumMissing h⟩

/-- C1 fails on the code: line 113 joins `test_patterns_that_did_not_match`,
a set, without sorting it, so the message text depends on the set's
iteration order.  Concretely, with unmatched patterns `aaa` and `bbb`, both
`[aaa, bbb]` and `[bbb, aaa]` are faithful iteration orders of the same
unmatched set (the second not sorted, since `aaa < bbb`), and they yield
different error texts for the same run inputs. -/
theorem C1_counterexample :
    validEnum (unmatchedPatterns patsAB []) [lineA, lineB] ∧
    validEnum (unmatchedPatterns patsAB []) [lineB, lineA] ∧
    (unmatchedPatterns patsAB []).Nonempty ∧
    specSorted [lineA, lineB] = true ∧
    specSorted [lineB, lineA] = false ∧
    runSelection true true patsAB [] [lineA, lineB]
      ≠ runSelection true true patsAB [] [lineB, lineA] := by
  decide

/-- C1 (amended): the message used both for the fatal error (flag set) and
for the warning (flag unset) is the fixed header followed by the join of the
unmatched patterns in the order the set is iterated, an arbitrary
duplicate-free enumeration of the unmatched-pattern set; the patterns are
not sorted, so the text is determined only up to that iteration order. -/
theorem C1_amended_message (shouldSelect : Bool) (patterns : Finset String)
    (items : List Item) (enum : List String)
    (henum : validEnum (unmatchedPatterns patterns items) enum)
    (h : (unmatchedPatterns patterns items).Nonempty) :
    runSelection shouldSelect true patterns items enum
      = RunOutcome.usageError (missingMessage enum) ∧
    runSelection shouldSelect false patterns items enum
      = RunOutcome.completed (some (missingMessage enum))
          (keptItems shouldSelect patterns items)
          (removedItems shouldSelect patterns items) ∧
    missingMessage enum = messageHeader ++ String.intercalate messageSep enum ∧
    enum.Nodup ∧ enum.toFinset = unmatchedPatterns patterns items :=
  ⟨by simp [runSelection, h], by simp [runSelection, h], rfl, henum.1, henum.2⟩

/-- Witness for the amended C1: the two-pattern run with its sorted
iteration order. -/
theorem C1_witness :
    validEnum (unmatchedPatterns patsAB []) [lineA, lineB] ∧
    (unmatchedPatterns patsAB []).Nonempty ∧
    (runSelection true true patsAB [] [lineA, lineB]
      = RunOutcome.usageError (missingMessage [lineA, lineB]) ∧
    runSelection true false patsAB [] [lineA, lineB]
      = RunOutcome.completed (some (missingMessage [lineA, lineB]))
          (keptItems true patsAB []) (removedItems true patsAB []) ∧
    missingMessage [lineA, lineB]
      = messageHeader ++ String.intercalate messageSep [lineA, lineB] ∧
    List.Nodup [lineA, lineB] ∧
    List.toFinset [lineA, lineB] = unmatchedPatterns patsAB []) := by
  have he : validEnum (unmatchedPatterns patsAB []) [lineA, lineB] := by decide
  have h : (unmatchedPatterns patsAB []).Nonempty := by decide
  exact ⟨he, h, C1_amended_message true patsAB [] [lineA, lineB] he h⟩

/-- C8: when both file options are set, validation fails with the conflict
error before any filesystem access: the result does not depend on the
filesystem, no existence query is recorded, and the whole hook errors with
no file opened or read and the collection untouched. -/
theorem C8_conflict (config : Config)
    (h1 : config.selectfromfile.isSome = true)
    (h2 : config.deselectfromfile.isSome = true) :
    (∀ fsExists : String → Bool,
        validateOptionValues fsExists config = (Except.error conflictMessage, [])) ∧
    (∀ (fsExists : String → Bool) (fsReadLines : String → List String)
        (items : List Item) (enum : List String),
        runModifyItems fsExists fsReadLines config items enum
          = (⟨some conflictMessage, none, items, []⟩, [])) := by
  have hv : ∀ fsExists : String → Bool,
      validateOptionValues fsExists config = (Except.error conflictMessage, []) := by
    intro fsExists
    simp [validateOptionValues, h1, h2]
  refine ⟨hv, fun fsExists fsReadLines items enum => ?_⟩
  simp [runModifyItems, hv fsExists]

/-- Witness for C8: a configuration with both options set, on a filesystem
where nothing exists and every read would return nothing. -/
theorem C8_witness :
    cfgBoth.selectfromfile.isSome = true ∧
    cfgBoth.deselectfromfile.isSome = true ∧
    validateOptionValues (fun _ => false) cfgBoth = (Except.error conflictMessage, []) ∧
    runModifyItems (fun _ => false) (fun _ => []) cfgBoth [] []
      = (⟨some conflictMessage, none, [], []⟩, []) := by
  have h := C8_conflict cfgBoth (by decide) (by decide)
  exact ⟨by decide, by decide, h.1 _, h.2 _ _ _ _⟩

/-- C10: a line whose first character is whitespace is not a comment even if
its stripped form starts with the hash character: the comment check looks at
the raw first character only, and the line is loaded as its stripped
pattern. -/
theorem C10_indented_comment (l : String) (c : Char)
    (hhead : l.data.head? = some c) (hws : isPySpace c = true)
    (_htrim : (pyStrip l).data.head? = some '#') :
    pyStartsWithHash l = false ∧
    ∀ lines : List String, l ∈ lines → pyStrip l ∈ loadPatterns lines := by
  have hc : c ≠ '#' := by
    intro hc
    rw [hc] at hws
    exact absurd hws (by decide)
  have hne : pyStartsWithHash l = false := by
    simp only [pyStartsWithHash, hhead]
    simp [hc]
  refine ⟨hne, fun lines hl => ?_⟩
  simp only [loadPatterns, List.mem_toFinset, List.mem_map]
  exact ⟨l, List.mem_filter.mpr ⟨hl, by simp [hne]⟩, rfl⟩

/-- Witness for C10: the line `  # foo` is loaded as the pattern `# foo`. -/
theorem C10_witness :
    lineIndentHash.data.head? = some ' ' ∧
    isPySpace ' ' = true ∧
    (pyStrip lineIndentHash).data.head? = some '#' ∧
    pyStrip lineIndentHash = patHashFoo ∧
    (pyStartsWithHash lineIndentHash = false ∧
      pyStrip lineIndentHash ∈ loadPatterns [lineIndentHash]) := by
  have h := C10_indented_comment lineIndentHash ' ' (by decide) (by decide) (by decide)
  exact ⟨by decide, by decide, by decide, by decide,
    h.1, h.2 [lineIndentHash] (by simp)⟩

end PytestSelect
